import Mathlib

/-!
Verification of the spectrogram visualizer core
(`src/javascripts/3D/visualizer.js`, `src/javascripts/3D/matrix4x4.js`,
and the `o3djs.shader` helper) against its natural-language specification.

The JavaScript is shallowly embedded: machine floats are modelled by exact
rationals (`ℚ`), the WebGL texture backing the frequency ring buffer by a
total function from row index to snapshot, and the GL calls issued by
`drawGL` by an explicit command trace restricted to the calls the claims
talk about (program binding, the `yoffset` uniform, and the draw call).
-/

namespace Spectro

/-! ## Render-mode state machine (visualizer.js lines 4-7, 47-74, 110-119, 333-340) -/

/-- The four analysis types of `visualizer.js`
(`ANALYSISTYPE_FREQUENCY = 0`, `ANALYSISTYPE_SONOGRAM = 1`,
`ANALYSISTYPE_3D_SONOGRAM = 2`, `ANALYSISTYPE_WAVEFORM = 3`). -/
inductive AnalysisType where
  | frequency
  | sonogram
  | sonogram3D
  | waveform
deriving DecidableEq, Repr

/-- The analysis type installed by the `AnalyserView` constructor
(visualizer.js line 52: `this.analysisType = ANALYSISTYPE_3D_SONOGRAM`). -/
def constructorAnalysisType : AnalysisType := .sonogram3D

/-- The downgrade performed inside `initGL` (visualizer.js lines 114-119):
if the vertex-texture capability is missing and the current analysis type is
the 3D sonogram, it is replaced by `frequency`. -/
def initGLResolveType (has3DVisualizer : Bool) (t : AnalysisType) : AnalysisType :=
  if has3DVisualizer = false ∧ t = .sonogram3D then .frequency else t

/-- Analysis type right after `initGL`, starting from the constructor default. -/
def initialAnalysisType (has3DVisualizer : Bool) : AnalysisType :=
  initGLResolveType has3DVisualizer constructorAnalysisType

/-- `AnalyserView.setAnalysisType` (visualizer.js lines 333-340): when the
3D capability is absent and the request is the 3D sonogram the method
returns early, leaving the current type in place; otherwise the requested
type is adopted. -/
def setAnalysisType (has3DVisualizer : Bool) (current requested : AnalysisType) :
    AnalysisType :=
  if has3DVisualizer = false ∧ requested = .sonogram3D then current else requested

/-- A sequence of `setAnalysisType` calls folded over a starting type. -/
def runSetModes (has3DVisualizer : Bool) (t : AnalysisType)
    (reqs : List AnalysisType) : AnalysisType :=
  reqs.foldl (setAnalysisType has3DVisualizer) t

/-- The condition of visualizer.js lines 392-395 and 411-414
(`analysisType == ANALYSISTYPE_SONOGRAM || analysisType ==
ANALYSISTYPE_3D_SONOGRAM`): the sonogram and 3D-sonogram modes accumulate
rows in the texture. -/
def isAccumulating : AnalysisType → Bool
  | .sonogram => true
  | .sonogram3D => true
  | .frequency => false
  | .waveform => false

/-! ## Frequency ring buffer (visualizer.js lines 58-61, 390-417) -/

/-- The ring-buffer state of `AnalyserView`: `height` is `TEXTURE_HEIGHT`,
`rows` is the backing texture viewed row by row, and `cursor` is the
`yoffset` field. -/
structure RingBuffer (α : Type) where
  height : ℕ
  rows : ℕ → α
  cursor : ℕ

/-- One texture write of `drawGL` (visualizer.js lines 392-416): when the
mode does not accumulate the cursor is first reset to 0; the snapshot is
stored by `texSubImage2D` into the row the cursor points at; when the mode
accumulates the cursor then advances by one modulo the texture height. -/
def RingBuffer.write {α : Type} (rb : RingBuffer α) (snapshot : α)
    (accumulate : Bool) : RingBuffer α :=
  let c := if accumulate then rb.cursor else 0
  { height := rb.height
    rows := fun r => if r = c then snapshot else rb.rows r
    cursor := if accumulate then (c + 1) % rb.height else c }

/-- `yoffset / (TEXTURE_HEIGHT - 1)` (visualizer.js lines 458 and 473). -/
def RingBuffer.normalizedOffset {α : Type} (rb : RingBuffer α) : ℚ :=
  (rb.cursor : ℚ) / ((rb.height : ℚ) - 1)

/-- A sequence of accumulating writes. -/
def writeAllAcc {α : Type} (rb : RingBuffer α) (ss : List α) : RingBuffer α :=
  ss.foldl (fun b s => b.write s true) rb

@[simp] theorem write_height {α : Type} (rb : RingBuffer α) (s : α) (a : Bool) :
    (rb.write s a).height = rb.height := rfl

@[simp] theorem write_cursor_acc {α : Type} (rb : RingBuffer α) (s : α) :
    (rb.write s true).cursor = (rb.cursor + 1) % rb.height := by
  simp [RingBuffer.write]

@[simp] theorem write_rows_acc {α : Type} (rb : RingBuffer α) (s : α) (r : ℕ) :
    (rb.write s true).rows r = if r = rb.cursor then s else rb.rows r := by
  simp [RingBuffer.write]

@[simp] theorem writeAllAcc_nil {α : Type} (rb : RingBuffer α) :
    writeAllAcc rb [] = rb := rfl

@[simp] theorem writeAllAcc_cons {α : Type} (rb : RingBuffer α) (s : α) (t : List α) :
    writeAllAcc rb (s :: t) = writeAllAcc (rb.write s true) t := rfl

theorem writeAllAcc_append {α : Type} (rb : RingBuffer α) (t : List α) (s : α) :
    writeAllAcc rb (t ++ [s]) = (writeAllAcc rb t).write s true := by
  simp [writeAllAcc]

theorem writeAllAcc_height {α : Type} (rb : RingBuffer α) (ss : List α) :
    (writeAllAcc rb ss).height = rb.height := by
  induction ss generalizing rb with
  | nil => rfl
  | cons s t ih => simpa [writeAllAcc] using ih (rb.write s true)

theorem writeAllAcc_cursor {α : Type} (rb : RingBuffer α) (ss : List α)
    (hc : rb.cursor < rb.height) :
    (writeAllAcc rb ss).cursor = (rb.cursor + ss.length) % rb.height := by
  induction ss generalizing rb with
  | nil => simpa using (Nat.mod_eq_of_lt hc).symm
  | cons s t ih =>
      have hH : 0 < rb.height := lt_of_le_of_lt (Nat.zero_le _) hc
      have h1 : (rb.write s true).cursor < (rb.write s true).height := by
        simpa using Nat.mod_lt _ hH
      have h2 := ih (rb.write s true) h1
      simp only [writeAllAcc_cons, h2, write_cursor_acc, write_height,
        List.length_cons]
      rw [Nat.mod_add_mod]
      ring_nf

theorem writeAllAcc_cursor_lt {α : Type} (rb : RingBuffer α) (ss : List α)
    (hc : rb.cursor < rb.height) :
    (writeAllAcc rb ss).cursor < (writeAllAcc rb ss).height := by
  have hH : 0 < rb.height := lt_of_le_of_lt (Nat.zero_le _) hc
  rw [writeAllAcc_cursor rb ss hc, writeAllAcc_height]
  exact Nat.mod_lt _ hH

theorem add_mod_ne_self (c d H : ℕ) (hc : c < H) (hd0 : 0 < d) (hdH : d < H) :
    (c + d) % H ≠ c := by
  rcases Nat.lt_or_ge (c + d) H with h | h
  · rw [Nat.mod_eq_of_lt h]
    omega
  · have h2 : c + d - H < H := by omega
    rw [Nat.mod_eq_sub_mod h, Nat.mod_eq_of_lt h2]
    omega

/-- Row history of the accumulating texture writes: after a sequence of
accumulating writes, the row the cursor passed `k + 1` steps ago (that is,
row `(cursor - 1 - k) mod H`, written here with natural-number arithmetic
as `(cursor + (H - (k + 1))) mod H`) holds the snapshot written `k` writes
ago, the last write counting as `k = 0`. -/
theorem writeAllAcc_rows_history {α : Type} (rb : RingBuffer α) (ss : List α)
    (k : ℕ) (hc : rb.cursor < rb.height) (hk : k < rb.height)
    (hks : k < ss.length) :
    (writeAllAcc rb ss).rows
        (((writeAllAcc rb ss).cursor + (rb.height - (k + 1))) % rb.height)
      = ss.get ⟨ss.length - 1 - k, by omega⟩ := by
  induction ss using List.reverseRecOn generalizing k with
  | nil => simp at hks
  | append_singleton t s ih =>
      have hH : 0 < rb.height := lt_of_le_of_lt (Nat.zero_le _) hc
      have hA : (writeAllAcc rb t).cursor < rb.height := by
        have h3 := writeAllAcc_cursor_lt rb t hc
        rwa [writeAllAcc_height] at h3
      rw [writeAllAcc_append]
      cases k with
      | zero =>
          have hidx :
              (((writeAllAcc rb t).write s true).cursor + (rb.height - 1))
                  % rb.height = (writeAllAcc rb t).cursor := by
            rw [write_cursor_acc, writeAllAcc_height, Nat.mod_add_mod]
            have h4 : (writeAllAcc rb t).cursor + 1 + (rb.height - 1)
                = (writeAllAcc rb t).cursor + rb.height := by omega
            rw [h4, Nat.add_mod_right, Nat.mod_eq_of_lt hA]
          rw [hidx, write_rows_acc, if_pos rfl]
          have h5 : (t ++ [s]).length - 1 - 0 = t.length := by simp
          simp [List.get_eq_getElem, h5]
      | succ j =>
          have hj : j < rb.height := by omega
          have hjt : j < t.length := by
            simp only [List.length_append, List.length_cons,
              List.length_nil] at hks
            omega
          have hidx :
              (((writeAllAcc rb t).write s true).cursor
                  + (rb.height - (j + 1 + 1))) % rb.height
                = ((writeAllAcc rb t).cursor + (rb.height - (j + 1)))
                  % rb.height := by
            rw [write_cursor_acc, writeAllAcc_height, Nat.mod_add_mod]
            have h4 : (writeAllAcc rb t).cursor + 1 + (rb.height - (j + 1 + 1))
                = (writeAllAcc rb t).cursor + (rb.height - (j + 1)) := by
              omega
            rw [h4]
          have hne :
              ((writeAllAcc rb t).cursor + (rb.height - (j + 1))) % rb.height
                ≠ (writeAllAcc rb t).cursor := by
            apply add_mod_ne_self _ _ _ hA <;> omega
          rw [hidx, write_rows_acc, if_neg hne, ih j hj hjt]
          have h6 : (t ++ [s]).length - 1 - (j + 1) = t.length - 1 - j := by
            simp only [List.length_append, List.length_cons, List.length_nil]
            omega
          have h7 : t.length - 1 - j < t.length := by omega
          simp only [List.get_eq_getElem, h6]
          rw [List.getElem_append_left h7]

/-! ## Heightfield mesh (visualizer.js lines 194-256) -/

/-- Vertex position at grid cell `(x, z)` (visualizer.js lines 205-211):
`(size * (x - W/2) / W, 0, size * (z - H/2) / H)`, with the divisions taken
over the rationals as the JavaScript number divisions are. -/
def vertexPosition (w h : ℕ) (size : ℚ) (x z : ℕ) : ℚ × ℚ × ℚ :=
  (size * ((x : ℚ) - (w : ℚ) / 2) / (w : ℚ), 0,
    size * ((z : ℚ) - (h : ℚ) / 2) / (h : ℚ))

/-- Texture coordinate at grid cell `(x, z)` (visualizer.js lines 213-216):
`(x / (W - 1), z / (H - 1))`. -/
def vertexTexCoord (w h : ℕ) (x z : ℕ) : ℚ × ℚ :=
  ((x : ℚ) / ((w : ℚ) - 1), (z : ℚ) / ((h : ℚ) - 1))

/-- The six indices one inner-loop pass appends for cell `(x, z)`
(visualizer.js lines 249-254). -/
def cellIndices (w x z : ℕ) : List ℕ :=
  [z * w + x, z * w + x + 1, (z + 1) * w + x + 1,
    z * w + x, (z + 1) * w + x + 1, (z + 1) * w + x]

/-- One row of the index buffer: the inner loop over `x` (visualizer.js
line 248). -/
def rowIndices (w z : ℕ) : List ℕ :=
  (List.range (w - 1)).flatMap (fun x => cellIndices w x z)

/-- The full index buffer generated by the nested loops of visualizer.js
lines 246-256. -/
def sonogram3DIndices (w h : ℕ) : List ℕ :=
  (List.range (h - 1)).flatMap (fun z => rowIndices w z)

/-- The local `sonogram3DNumIndices` of visualizer.js lines 237-238:
`(W - 1) * (H - 1) * 6`, the number of indices actually generated into the
index buffer. -/
def sonogram3DNumIndicesLocal (w h : ℕ) : ℕ := (w - 1) * (h - 1) * 6

/-- The `sonogram3DNumIndices` FIELD stored on the view (visualizer.js line
239): the generated count minus `6 * 600`.  JavaScript numbers can go
negative, so the field is modelled in `ℤ`. -/
def sonogram3DNumIndicesStored (w h : ℕ) : ℤ :=
  (sonogram3DNumIndicesLocal w h : ℤ) - 6 * 600

/-- The vertex-count guard of `initGL` (visualizer.js lines 195-198): more
than 65536 vertices throws, which propagates out of `initGL` and out of the
constructor; otherwise initialization proceeds to build the mesh. -/
def initGLMesh (w h : ℕ) (size : ℚ) :
    Except String ((ℕ → ℕ → ℚ × ℚ × ℚ) × (ℕ → ℕ → ℚ × ℚ) × List ℕ) :=
  if w * h > 65536 then
    Except.error "Sonogram 3D resolution is too high: can only handle 65536 vertices max"
  else
    Except.ok (vertexPosition w h size, vertexTexCoord w h, sonogram3DIndices w h)

theorem length_flatMap_const {β : Type} (f : ℕ → List β) (c : ℕ)
    (hf : ∀ x, (f x).length = c) :
    ∀ (n a : ℕ), ((List.range' a n).flatMap f).length = n * c := by
  intro n
  induction n with
  | zero => intro a; simp
  | succ m ih =>
      intro a
      rw [List.range'_succ]
      simp only [List.flatMap_cons, List.length_append, hf, ih (a + 1)]
      ring

theorem flatMap_range_drop {β : Type} (f : ℕ → List β) (c : ℕ)
    (hf : ∀ x, (f x).length = c) :
    ∀ (k n a : ℕ), k ≤ n →
      ((List.range' a n).flatMap f).drop (c * k)
        = (List.range' (a + k) (n - k)).flatMap f := by
  intro k
  induction k with
  | zero => intro n a _; simp
  | succ j ih =>
      intro n a hkn
      have hn : 0 < n := by omega
      obtain ⟨m, rfl⟩ : ∃ m, n = m + 1 := ⟨n - 1, by omega⟩
      rw [List.range'_succ, List.flatMap_cons]
      have hcj : c * (j + 1) = c + c * j := by ring
      rw [hcj, ← List.drop_drop, List.drop_left' (hf a), ih m (a + 1) (by omega)]
      have h5 : a + 1 + j = a + (j + 1) := by omega
      have h6 : m - j = m + 1 - (j + 1) := by omega
      rw [h5, h6]

theorem rowIndices_length (w z : ℕ) : (rowIndices w z).length = 6 * (w - 1) := by
  have h1 : (List.range (w - 1)) = List.range' 0 (w - 1) := by
    rw [List.range_eq_range']
  rw [rowIndices, h1,
    length_flatMap_const (fun x => cellIndices w x z) 6 (fun x => rfl)]
  ring

theorem sonogram3DIndices_length (w h : ℕ) :
    (sonogram3DIndices w h).length = sonogram3DNumIndicesLocal w h := by
  have h1 : (List.range (h - 1)) = List.range' 0 (h - 1) := by
    rw [List.range_eq_range']
  rw [sonogram3DIndices, h1,
    length_flatMap_const _ (6 * (w - 1)) (fun z => rowIndices_length w z),
    sonogram3DNumIndicesLocal]
  ring

/-- The six indices for interior cell `(x, z)` sit at offset
`6 * (z * (w - 1) + x)` of the generated index buffer. -/
theorem sonogram3DIndices_cell (w h x z : ℕ) (hx : x < w - 1) (hz : z < h - 1) :
    ((sonogram3DIndices w h).drop (6 * (z * (w - 1) + x))).take 6
      = cellIndices w x z := by
  have hrange : ∀ n, List.range n = List.range' 0 n := by
    intro n; rw [List.range_eq_range']
  have hsplit : 6 * (z * (w - 1) + x) = (6 * (w - 1)) * z + 6 * x := by ring
  rw [sonogram3DIndices, hrange, hsplit, ← List.drop_drop]
  rw [flatMap_range_drop _ (6 * (w - 1)) (fun z => rowIndices_length w z) z _ 0
    (by omega)]
  have hz2 : 0 < h - 1 - z := by omega
  obtain ⟨m, hm⟩ : ∃ m, h - 1 - z = m + 1 := ⟨h - 1 - z - 1, by omega⟩
  rw [hm, List.range'_succ, List.flatMap_cons, Nat.zero_add]
  rw [List.drop_append_of_le_length (by rw [rowIndices_length]; omega)]
  rw [rowIndices, hrange,
    flatMap_range_drop (fun x => cellIndices w x z) 6 (fun x => rfl) x _ 0
      (by omega)]
  have hx2 : 0 < w - 1 - x := by omega
  obtain ⟨p, hp⟩ : ∃ p, w - 1 - x = p + 1 := ⟨w - 1 - x - 1, by omega⟩
  rw [hp, List.range'_succ, List.flatMap_cons, Nat.zero_add]
  rw [List.take_append_of_le_length (by simp [cellIndices])]
  simp [cellIndices]

/-! ## Shader collaborator and the drawGL command trace
(part_003 `o3djs.shader`, visualizer.js lines 370-565) -/

/-- The `o3djs.shader.Shader` object as `drawGL` sees it: `program` is the
WebGL program handle, which the constructor sets to `null` (here `none`)
when linking fails (part_003 lines 110-117); `bind()` merely calls
`gl.useProgram(this.program)` on whatever the handle is (part_003 lines
140-142). -/
structure Shader where
  program : Option ℕ
deriving DecidableEq, Repr

/-- The GL calls `drawGL` issues that the specification talks about: the
program binding performed by `Shader.bind`, the `yoffset` uniform upload,
and the final draw call.  The trace is restricted to these calls. -/
inductive GLCommand where
  | useProgram (program : Option ℕ)
  | uniform1fYOffset (v : ℚ)
  | drawArraysTriangles (count : ℕ)
  | drawElementsTriangles (count : ℤ)
deriving DecidableEq, Repr

/-- The fields of `AnalyserView` that `drawGL` reads and writes:
`analysisType`, the texture ring buffer (`texture`, `yoffset`,
`TEXTURE_HEIGHT`), the stored `sonogram3DNumIndices`, and the four shader
objects loaded by `initGL`. -/
structure AnalyserViewState (α : Type) where
  analysisType : AnalysisType
  ringBuffer : RingBuffer α
  sonogram3DNumIndices : ℤ
  frequencyShader : Shader
  waveformShader : Shader
  sonogramShader : Shader
  sonogram3DShader : Shader

/-- The shader selected by the `switch` of visualizer.js lines 432-522. -/
def currentShader {α : Type} (st : AnalyserViewState α) : Shader :=
  match st.analysisType with
  | .frequency => st.frequencyShader
  | .waveform => st.waveformShader
  | .sonogram => st.sonogramShader
  | .sonogram3D => st.sonogram3DShader

/-- The value uploaded to the `yoffset` uniform of the bound shader:
`0.5 / (TEXTURE_HEIGHT - 1)` for the frequency and waveform branches
(visualizer.js line 446), `yoffset / (TEXTURE_HEIGHT - 1)` for the
sonogram branch (line 458) and the 3D-sonogram branch (lines 473-475). -/
def drawGLYOffsetUniform {α : Type} (t : AnalysisType) (rb : RingBuffer α) : ℚ :=
  match t with
  | .frequency => (1 / 2) / ((rb.height : ℚ) - 1)
  | .waveform => (1 / 2) / ((rb.height : ℚ) - 1)
  | .sonogram => (rb.cursor : ℚ) / ((rb.height : ℚ) - 1)
  | .sonogram3D => (rb.cursor : ℚ) / ((rb.height : ℚ) - 1)

/-- `AnalyserView.drawGL` (visualizer.js lines 370-565): update the texture
ring buffer from the snapshot (lines 390-417), bind the shader of the
active mode and set its `yoffset` uniform (lines 432-522), and issue the
draw call (lines 550-560) — `drawArrays` of 6 vertices for the 2D modes,
`drawElements` of the stored `sonogram3DNumIndices` for the 3D sonogram.
Returns the updated state and the trace of issued GL calls. -/
def drawGL {α : Type} (st : AnalyserViewState α) (freqByteData : α) :
    AnalyserViewState α × List GLCommand :=
  let rb := st.ringBuffer.write freqByteData (isAccumulating st.analysisType)
  let st2 : AnalyserViewState α := { st with ringBuffer := rb }
  let draw : GLCommand :=
    match st.analysisType with
    | .sonogram3D => .drawElementsTriangles st.sonogram3DNumIndices
    | _ => .drawArraysTriangles 6
  (st2,
    [.useProgram (currentShader st2).program,
      .uniform1fYOffset (drawGLYOffsetUniform st2.analysisType rb),
      draw])

/-! ## Matrix4x4 (matrix4x4.js), over exact rational arithmetic.
Field `e<r><c>` is `elements[4*r+c]`, so `get(r, c) = e<r><c>`. -/

/-- The 16 entries of a `Matrix4x4`, row-major as in the source. -/
@[ext]
structure Matrix4x4 where
  e00 : ℚ
  e01 : ℚ
  e02 : ℚ
  e03 : ℚ
  e10 : ℚ
  e11 : ℚ
  e12 : ℚ
  e13 : ℚ
  e20 : ℚ
  e21 : ℚ
  e22 : ℚ
  e23 : ℚ
  e30 : ℚ
  e31 : ℚ
  e32 : ℚ
  e33 : ℚ
deriving DecidableEq, Repr

/-- `loadIdentity` (matrix4x4.js lines 467-476), which is also the state of
a freshly constructed matrix. -/
def Matrix4x4.loadIdentity : Matrix4x4 :=
  ⟨1, 0, 0, 0, 0, 1, 0, 0, 0, 0, 1, 0, 0, 0, 0, 1⟩

/-- `multiply` (matrix4x4.js lines 201-232): `this` becomes the row-major
product `this * other`, computed into a temporary so aliasing is safe. -/
def Matrix4x4.multiply (a b : Matrix4x4) : Matrix4x4 where
  e00 := a.e00 * b.e00 + a.e01 * b.e10 + a.e02 * b.e20 + a.e03 * b.e30
  e01 := a.e00 * b.e01 + a.e01 * b.e11 + a.e02 * b.e21 + a.e03 * b.e31
  e02 := a.e00 * b.e02 + a.e01 * b.e12 + a.e02 * b.e22 + a.e03 * b.e32
  e03 := a.e00 * b.e03 + a.e01 * b.e13 + a.e02 * b.e23 + a.e03 * b.e33
  e10 := a.e10 * b.e00 + a.e11 * b.e10 + a.e12 * b.e20 + a.e13 * b.e30
  e11 := a.e10 * b.e01 + a.e11 * b.e11 + a.e12 * b.e21 + a.e13 * b.e31
  e12 := a.e10 * b.e02 + a.e11 * b.e12 + a.e12 * b.e22 + a.e13 * b.e32
  e13 := a.e10 * b.e03 + a.e11 * b.e13 + a.e12 * b.e23 + a.e13 * b.e33
  e20 := a.e20 * b.e00 + a.e21 * b.e10 + a.e22 * b.e20 + a.e23 * b.e30
  e21 := a.e20 * b.e01 + a.e21 * b.e11 + a.e22 * b.e21 + a.e23 * b.e31
  e22 := a.e20 * b.e02 + a.e21 * b.e12 + a.e22 * b.e22 + a.e23 * b.e32
  e23 := a.e20 * b.e03 + a.e21 * b.e13 + a.e22 * b.e23 + a.e23 * b.e33
  e30 := a.e30 * b.e00 + a.e31 * b.e10 + a.e32 * b.e20 + a.e33 * b.e30
  e31 := a.e30 * b.e01 + a.e31 * b.e11 + a.e32 * b.e21 + a.e33 * b.e31
  e32 := a.e30 * b.e02 + a.e31 * b.e12 + a.e32 * b.e22 + a.e33 * b.e32
  e33 := a.e30 * b.e03 + a.e31 * b.e13 + a.e32 * b.e23 + a.e33 * b.e33

/-- `copy` (matrix4x4.js lines 234-240). -/
def Matrix4x4.copy (m : Matrix4x4) : Matrix4x4 :=
  ⟨m.e00, m.e01, m.e02, m.e03, m.e10, m.e11, m.e12, m.e13,
    m.e20, m.e21, m.e22, m.e23, m.e30, m.e31, m.e32, m.e33⟩

/-- `tmp0` of `invert` (matrix4x4.js line 248). -/
def tmp0 (m : Matrix4x4) : ℚ := m.e22 * m.e33

/-- `tmp1` (line 249). -/
def tmp1 (m : Matrix4x4) : ℚ := m.e32 * m.e23

/-- `tmp2` (line 250). -/
def tmp2 (m : Matrix4x4) : ℚ := m.e12 * m.e33

/-- `tmp3` (line 251). -/
def tmp3 (m : Matrix4x4) : ℚ := m.e32 * m.e13

/-- `tmp4` (line 252). -/
def tmp4 (m : Matrix4x4) : ℚ := m.e12 * m.e23

/-- `tmp5` (line 253). -/
def tmp5 (m : Matrix4x4) : ℚ := m.e22 * m.e13

/-- `tmp6` (line 254). -/
def tmp6 (m : Matrix4x4) : ℚ := m.e02 * m.e33

/-- `tmp7` (line 255). -/
def tmp7 (m : Matrix4x4) : ℚ := m.e32 * m.e03

/-- `tmp8` (line 256). -/
def tmp8 (m : Matrix4x4) : ℚ := m.e02 * m.e23

/-- `tmp9` (line 257). -/
def tmp9 (m : Matrix4x4) : ℚ := m.e22 * m.e03

/-- `tmp10` (line 258). -/
def tmp10 (m : Matrix4x4) : ℚ := m.e02 * m.e13

/-- `tmp11` (line 259). -/
def tmp11 (m : Matrix4x4) : ℚ := m.e12 * m.e03

/-- `tmp12` (line 260). -/
def tmp12 (m : Matrix4x4) : ℚ := m.e20 * m.e31

/-- `tmp13` (line 261). -/
def tmp13 (m : Matrix4x4) : ℚ := m.e30 * m.e21

/-- `tmp14` (line 262). -/
def tmp14 (m : Matrix4x4) : ℚ := m.e10 * m.e31

/-- `tmp15` (line 263). -/
def tmp15 (m : Matrix4x4) : ℚ := m.e30 * m.e11

/-- `tmp16` (line 264). -/
def tmp16 (m : Matrix4x4) : ℚ := m.e10 * m.e21

/-- `tmp17` (line 265). -/
def tmp17 (m : Matrix4x4) : ℚ := m.e20 * m.e11

/-- `tmp18` (line 266). -/
def tmp18 (m : Matrix4x4) : ℚ := m.e00 * m.e31

/-- `tmp19` (line 267). -/
def tmp19 (m : Matrix4x4) : ℚ := m.e30 * m.e01

/-- `tmp20` (line 268). -/
def tmp20 (m : Matrix4x4) : ℚ := m.e00 * m.e21

/-- `tmp21` (line 269). -/
def tmp21 (m : Matrix4x4) : ℚ := m.e20 * m.e01

/-- `tmp22` (line 270). -/
def tmp22 (m : Matrix4x4) : ℚ := m.e00 * m.e11

/-- `tmp23` (line 271). -/
def tmp23 (m : Matrix4x4) : ℚ := m.e10 * m.e01

/-- `t0` of `invert` (matrix4x4.js lines 273-279). -/
def t0 (m : Matrix4x4) : ℚ :=
  tmp0 m * m.e11 + tmp3 m * m.e21 + tmp4 m * m.e31
    - (tmp1 m * m.e11 + tmp2 m * m.e21 + tmp5 m * m.e31)

/-- `t1` (lines 280-286). -/
def t1 (m : Matrix4x4) : ℚ :=
  tmp1 m * m.e01 + tmp6 m * m.e21 + tmp9 m * m.e31
    - (tmp0 m * m.e01 + tmp7 m * m.e21 + tmp8 m * m.e31)

/-- `t2` (lines 287-293). -/
def t2 (m : Matrix4x4) : ℚ :=
  tmp2 m * m.e01 + tmp7 m * m.e11 + tmp10 m * m.e31
    - (tmp3 m * m.e01 + tmp6 m * m.e11 + tmp11 m * m.e31)

/-- `t3` (lines 294-300). -/
def t3 (m : Matrix4x4) : ℚ :=
  tmp5 m * m.e01 + tmp8 m * m.e11 + tmp11 m * m.e21
    - (tmp4 m * m.e01 + tmp9 m * m.e11 + tmp10 m * m.e21)

/-- The denominator of `d` in `invert` (matrix4x4.js lines 302-307): the
cofactor expansion of the determinant along column 0. -/
def detM (m : Matrix4x4) : ℚ :=
  m.e00 * t0 m + m.e10 * t1 m + m.e20 * t2 m + m.e30 * t3 m

/-- `invert` (matrix4x4.js lines 247-430): the in-place cofactor-expansion
inverse, writing `out<r><c>` into `elements[4*r+c]`.  `d = 1.0 / det`
performs no singularity check in the source; over `ℚ` a zero determinant
makes `d` zero instead of infinite. -/
def Matrix4x4.invert (m : Matrix4x4) : Matrix4x4 :=
  let d : ℚ := 1 / detM m
  { e00 := d * t0 m
    e01 := d * t1 m
    e02 := d * t2 m
    e03 := d * t3 m
    e10 := d * (tmp1 m * m.e10 + tmp2 m * m.e20 + tmp5 m * m.e30
      - (tmp0 m * m.e10 + tmp3 m * m.e20 + tmp4 m * m.e30))
    e11 := d * (tmp0 m * m.e00 + tmp7 m * m.e20 + tmp8 m * m.e30
      - (tmp1 m * m.e00 + tmp6 m * m.e20 + tmp9 m * m.e30))
    e12 := d * (tmp3 m * m.e00 + tmp6 m * m.e10 + tmp11 m * m.e30
      - (tmp2 m * m.e00 + tmp7 m * m.e10 + tmp10 m * m.e30))
    e13 := d * (tmp4 m * m.e00 + tmp9 m * m.e10 + tmp10 m * m.e20
      - (tmp5 m * m.e00 + tmp8 m * m.e10 + tmp11 m * m.e20))
    e20 := d * (tmp12 m * m.e13 + tmp15 m * m.e23 + tmp16 m * m.e33
      - (tmp13 m * m.e13 + tmp14 m * m.e23 + tmp17 m * m.e33))
    e21 := d * (tmp13 m * m.e03 + tmp18 m * m.e23 + tmp21 m * m.e33
      - (tmp12 m * m.e03 + tmp19 m * m.e23 + tmp20 m * m.e33))
    e22 := d * (tmp14 m * m.e03 + tmp19 m * m.e13 + tmp22 m * m.e33
      - (tmp15 m * m.e03 + tmp18 m * m.e13 + tmp23 m * m.e33))
    e23 := d * (tmp17 m * m.e03 + tmp20 m * m.e13 + tmp23 m * m.e23
      - (tmp16 m * m.e03 + tmp21 m * m.e13 + tmp22 m * m.e23))
    e30 := d * (tmp14 m * m.e22 + tmp17 m * m.e32 + tmp13 m * m.e12
      - (tmp16 m * m.e32 + tmp12 m * m.e12 + tmp15 m * m.e22))
    e31 := d * (tmp20 m * m.e32 + tmp12 m * m.e02 + tmp19 m * m.e22
      - (tmp18 m * m.e22 + tmp21 m * m.e32 + tmp13 m * m.e02))
    e32 := d * (tmp18 m * m.e12 + tmp23 m * m.e32 + tmp15 m * m.e02
      - (tmp22 m * m.e32 + tmp14 m * m.e02 + tmp19 m * m.e12))
    e33 := d * (tmp22 m * m.e22 + tmp16 m * m.e02 + tmp21 m * m.e12
      - (tmp20 m * m.e12 + tmp23 m * m.e22 + tmp17 m * m.e02)) }

/-- `inverse` (matrix4x4.js lines 432-436): copy, then invert in place. -/
def Matrix4x4.inverse (m : Matrix4x4) : Matrix4x4 := m.copy.invert

theorem copy_eq (m : Matrix4x4) : m.copy = m := rfl

/-- Invariant of the mode machine: a sequence of `setAnalysisType` calls
without the 3D capability never leaves the set of non-3D modes. -/
theorem runSetModes_not3D (t : AnalysisType) (reqs : List AnalysisType)
    (ht : t ∈ [AnalysisType.frequency, AnalysisType.sonogram,
      AnalysisType.waveform]) :
    runSetModes false t reqs
      ∈ [AnalysisType.frequency, AnalysisType.sonogram,
          AnalysisType.waveform] := by
  induction reqs generalizing t with
  | nil => simpa [runSetModes] using ht
  | cons r rs ih =>
      have hstep : setAnalysisType false t r
          ∈ [AnalysisType.frequency, AnalysisType.sonogram,
              AnalysisType.waveform] := by
        by_cases hr : r = AnalysisType.sonogram3D
        · simpa [setAnalysisType, hr] using ht
        · cases r <;> simp_all [setAnalysisType]
      simpa [runSetModes] using ih _ hstep

/-! ## The claims -/

/-- C1, counterexample: with the capability flag false and the current mode
`sonogram`, `setAnalysisType(ANALYSISTYPE_3D_SONOGRAM)` does not resolve to
`frequency` — the early return keeps the active mode at `sonogram`. -/
theorem claim_c1_counterexample :
    setAnalysisType false AnalysisType.sonogram AnalysisType.sonogram3D
        = AnalysisType.sonogram
      ∧ setAnalysisType false AnalysisType.sonogram AnalysisType.sonogram3D
        ≠ AnalysisType.frequency := by
  decide

/-- C1 (amended): calling `setAnalysisType(Sonogram3D)` while the
capability flag is false leaves the active mode unchanged (the request is
ignored, not resolved to `Frequency`); for any other requested mode, or
when the capability flag is true, the active mode becomes exactly the
requested mode. -/
theorem claim_c1 (cur req : AnalysisType) (flag : Bool)
    (hreq : req ≠ AnalysisType.sonogram3D ∨ flag = true) :
    setAnalysisType false cur AnalysisType.sonogram3D = cur
      ∧ setAnalysisType flag cur req = req := by
  constructor
  · simp [setAnalysisType]
  · rcases hreq with hreq | hreq
    · simp [setAnalysisType, hreq]
    · simp [setAnalysisType, hreq]

/-- C1, witness at `cur = sonogram`, `req = frequency`, `flag = false`. -/
theorem claim_c1_witness :
    setAnalysisType false AnalysisType.sonogram AnalysisType.sonogram3D
        = AnalysisType.sonogram
      ∧ setAnalysisType false AnalysisType.sonogram AnalysisType.frequency
        = AnalysisType.frequency :=
  claim_c1 AnalysisType.sonogram AnalysisType.frequency false
    (Or.inl (by decide))

/-- C2: a non-accumulating write stores the snapshot in row 0 with the
cursor reset to 0; an accumulating write stores the snapshot in row
`cursor` and advances the cursor modulo the height; and in the concrete
`H = 4` scenario the fifth accumulating write lands in row 0, leaving the
cursor at 1 and the normalized offset at `1/3`. -/
theorem claim_c2 {α : Type} (rb : RingBuffer α) (s : α) :
    (rb.write s false).rows 0 = s
      ∧ (rb.write s false).cursor = 0
      ∧ (rb.write s true).rows rb.cursor = s
      ∧ (rb.write s true).cursor = (rb.cursor + 1) % rb.height
      ∧ (writeAllAcc (⟨4, fun _ => 0, 0⟩ : RingBuffer ℕ)
          [10, 11, 12, 13, 14]).rows 0 = 14
      ∧ (writeAllAcc (⟨4, fun _ => 0, 0⟩ : RingBuffer ℕ)
          [10, 11, 12, 13, 14]).cursor = 1
      ∧ (writeAllAcc (⟨4, fun _ => 0, 0⟩ : RingBuffer ℕ)
          [10, 11, 12, 13, 14]).normalizedOffset = 1 / 3 := by
  refine ⟨?_, ?_, ?_, ?_, ?_, ?_, ?_⟩
  · simp [RingBuffer.write]
  · simp [RingBuffer.write]
  · simp [RingBuffer.write]
  · simp [RingBuffer.write]
  · decide
  · decide
  · norm_num [writeAllAcc, RingBuffer.write, RingBuffer.normalizedOffset]

/-- C3, counterexample: after an accumulating write the cursor has already
advanced past the written row, so row `cursor` holds a stale value (here
the initial 0), not the snapshot just written (5). -/
theorem claim_c3_counterexample :
    ((⟨4, fun _ => 0, 0⟩ : RingBuffer ℕ).write 5 true).rows
        ((⟨4, fun _ => 0, 0⟩ : RingBuffer ℕ).write 5 true).cursor ≠ 5 := by
  decide

/-- C3 (amended): between frames, row `(cursor - 1 - k) mod H` — written
with natural-number arithmetic as `(cursor + (H - (k + 1))) mod H` — holds
the snapshot written `k` writes ago (`k = 0` being the most recent write),
for any run of accumulating writes long enough and shorter histories than
the buffer height.  Row `cursor` itself holds the next row to be
overwritten, not the most recent snapshot. -/
theorem claim_c3 {α : Type} (rb : RingBuffer α) (ss : List α) (k : ℕ)
    (hc : rb.cursor < rb.height) (hk : k < rb.height)
    (hks : k < ss.length) :
    (writeAllAcc rb ss).rows
        (((writeAllAcc rb ss).cursor + (rb.height - (k + 1))) % rb.height)
      = ss.get ⟨ss.length - 1 - k, by omega⟩ :=
  writeAllAcc_rows_history rb ss k hc hk hks

/-- C3, witness: two accumulating writes into an `H = 4` buffer; the
snapshot written one write before the last (`k = 1`) sits in row
`(cursor + 2) mod 4 = 0`. -/
theorem claim_c3_witness :
    (writeAllAcc (⟨4, fun _ => 0, 0⟩ : RingBuffer ℕ) [10, 11]).rows
        (((writeAllAcc (⟨4, fun _ => 0, 0⟩ : RingBuffer ℕ) [10, 11]).cursor
            + (4 - (1 + 1))) % 4)
      = 10 :=
  claim_c3 (⟨4, fun _ => 0, 0⟩ : RingBuffer ℕ) [10, 11] 1 (by decide)
    (by decide) (by decide)

/-- A concrete view state in 3D-sonogram mode with the stored index count
of the 256×256 mesh and all four shader programs linked. -/
def stC4 : AnalyserViewState ℕ where
  analysisType := .sonogram3D
  ringBuffer := ⟨256, fun _ => 0, 0⟩
  sonogram3DNumIndices := sonogram3DNumIndicesStored 256 256
  frequencyShader := ⟨some 1⟩
  waveformShader := ⟨some 2⟩
  sonogramShader := ⟨some 3⟩
  sonogram3DShader := ⟨some 4⟩

/-- C4, counterexample: the stored `sonogram3DNumIndices` field — the
element count `drawGL` hands to `drawElements` — is the generated count
minus `6 * 600`, i.e. 386550, not `(W-1)*(H-1)*6 = 390150`. -/
theorem claim_c4_counterexample :
    sonogram3DNumIndicesStored 256 256 = 386550
      ∧ ((256 - 1) * (256 - 1) * 6 : ℤ) = 390150
      ∧ sonogram3DNumIndicesStored 256 256
        ≠ ((256 - 1) * (256 - 1) * 6 : ℤ) := by
  decide

/-- C4 (amended): the index buffer itself holds `(W-1)*(H-1)*6` indices
covering the whole grid, but the element count passed to the indexed draw
is the stored field `(W-1)*(H-1)*6 - 3600`; at `W = H = 256` the draw call
therefore uses 386550 indices (128850 triangles, 600 cells short of the
130050 of the full grid). -/
theorem claim_c4 (w h : ℕ) :
    (sonogram3DIndices w h).length = (w - 1) * (h - 1) * 6
      ∧ sonogram3DNumIndicesStored w h
        = (((w - 1) * (h - 1) * 6 : ℕ) : ℤ) - 3600
      ∧ sonogram3DNumIndicesStored 256 256 = 386550
      ∧ (386550 : ℤ) = 128850 * 3
      ∧ GLCommand.drawElementsTriangles (sonogram3DNumIndicesStored 256 256)
        ∈ (drawGL stC4 0).2 := by
  refine ⟨?_, ?_, by decide, by decide, by decide⟩
  · rw [sonogram3DIndices_length, sonogram3DNumIndicesLocal]
  · simp [sonogram3DNumIndicesStored, sonogram3DNumIndicesLocal]

/-- A concrete view state in frequency mode with a 256-row texture. -/
def stC5 : AnalyserViewState ℕ where
  analysisType := .frequency
  ringBuffer := ⟨256, fun _ => 0, 3⟩
  sonogram3DNumIndices := sonogram3DNumIndicesStored 256 256
  frequencyShader := ⟨some 1⟩
  waveformShader := ⟨some 2⟩
  sonogramShader := ⟨some 3⟩
  sonogram3DShader := ⟨some 4⟩

/-- C5, counterexample: a frame rendered in `Frequency` mode after its
non-accumulating write has cursor 0 and `normalizedOffset() = 0`, yet the
value uploaded to the `yoffset` uniform is `0.5 / (256 - 1) = 1/510`,
not 0. -/
theorem claim_c5_counterexample :
    (drawGL stC5 128).1.ringBuffer.normalizedOffset = 0
      ∧ (drawGL stC5 128).2
        = [GLCommand.useProgram (some 1),
            GLCommand.uniform1fYOffset (1 / 510),
            GLCommand.drawArraysTriangles 6]
      ∧ (1 / 510 : ℚ) ≠ 0 := by
  refine ⟨?_, ?_, by norm_num⟩ <;>
    norm_num [drawGL, stC5, drawGLYOffsetUniform, currentShader,
      isAccumulating, RingBuffer.write, RingBuffer.normalizedOffset]

/-- C5 (amended): in `Sonogram` and `Sonogram3D` modes the `yoffset`
uniform handed to the bound shader equals
`normalizedOffset() = cursor / (H - 1)` of the updated ring buffer, but in
`Frequency` and `Waveform` modes it is the fixed half-texel offset
`0.5 / (H - 1)` regardless of the cursor. -/
theorem claim_c5 {α : Type} (rb : RingBuffer α) (n : ℤ)
    (fs ws ss s3 : Shader) (d : α) :
    (GLCommand.uniform1fYOffset
        ((drawGL (⟨.sonogram, rb, n, fs, ws, ss, s3⟩ : AnalyserViewState α)
          d).1.ringBuffer.normalizedOffset)
      ∈ (drawGL (⟨.sonogram, rb, n, fs, ws, ss, s3⟩ : AnalyserViewState α)
          d).2)
      ∧ (GLCommand.uniform1fYOffset
          ((drawGL (⟨.sonogram3D, rb, n, fs, ws, ss, s3⟩ :
            AnalyserViewState α) d).1.ringBuffer.normalizedOffset)
        ∈ (drawGL (⟨.sonogram3D, rb, n, fs, ws, ss, s3⟩ :
            AnalyserViewState α) d).2)
      ∧ (GLCommand.uniform1fYOffset ((1 / 2) / ((rb.height : ℚ) - 1))
        ∈ (drawGL (⟨.frequency, rb, n, fs, ws, ss, s3⟩ :
            AnalyserViewState α) d).2)
      ∧ (GLCommand.uniform1fYOffset ((1 / 2) / ((rb.height : ℚ) - 1))
        ∈ (drawGL (⟨.waveform, rb, n, fs, ws, ss, s3⟩ :
            AnalyserViewState α) d).2) := by
  refine ⟨?_, ?_, ?_, ?_⟩ <;>
    simp [drawGL, drawGLYOffsetUniform, RingBuffer.normalizedOffset,
      currentShader, isAccumulating]

/-- C6: without the capability flag the initial analysis type is
`frequency` (the constructor default `sonogram3D` is downgraded by
`initGL`), no sequence of `setAnalysisType` calls ever reaches
`sonogram3D` (the reachable set stays within the three non-3D modes), and
with the capability the initial analysis type is `sonogram3D`. -/
theorem claim_c6 :
    initialAnalysisType false = AnalysisType.frequency
      ∧ initialAnalysisType true = AnalysisType.sonogram3D
      ∧ ∀ reqs : List AnalysisType,
        runSetModes false (initialAnalysisType false) reqs
          ∈ [AnalysisType.frequency, AnalysisType.sonogram,
              AnalysisType.waveform] := by
  refine ⟨by decide, by decide, fun reqs => ?_⟩
  exact runSetModes_not3D _ reqs (by decide)

/-- C7: mesh construction fails exactly when `W*H` exceeds 65536 — the
`throw` of visualizer.js lines 196-198, surfaced here as the error case of
`initGLMesh` — and succeeds past the vertex-count check for every
`W*H ≤ 65536`, including `W = H = 256`, while `W = H = 300` fails. -/
theorem claim_c7 (w h : ℕ) (size : ℚ) :
    ((initGLMesh w h size).isOk = true ↔ w * h ≤ 65536)
      ∧ (initGLMesh 256 256 size).isOk = true
      ∧ (initGLMesh 300 300 size).isOk = false := by
  refine ⟨?_, ?_, ?_⟩
  · rw [initGLMesh]
    split <;> simp [Except.isOk, Except.toBool] <;> omega
  · rw [initGLMesh]
    norm_num [Except.isOk, Except.toBool]
  · rw [initGLMesh]
    norm_num [Except.isOk, Except.toBool]

/-- C8: each grid cell `(x, z)` of the heightfield carries position
`(size*(x - W/2)/W, 0, size*(z - H/2)/H)` and texture coordinate
`(x/(W-1), z/(H-1))`, and for each interior cell the index buffer contains
its two triangles, in order, at offset `6*(z*(W-1) + x)`. -/
theorem claim_c8 (w h : ℕ) (size : ℚ) (x z : ℕ) (hx : x < w) (hz : z < h) :
    vertexPosition w h size x z
        = (size * ((x : ℚ) - (w : ℚ) / 2) / (w : ℚ), 0,
            size * ((z : ℚ) - (h : ℚ) / 2) / (h : ℚ))
      ∧ vertexTexCoord w h x z
        = ((x : ℚ) / ((w : ℚ) - 1), (z : ℚ) / ((h : ℚ) - 1))
      ∧ (x < w - 1 → z < h - 1 →
          ((sonogram3DIndices w h).drop (6 * (z * (w - 1) + x))).take 6
            = [z * w + x, z * w + x + 1, (z + 1) * w + x + 1,
                z * w + x, (z + 1) * w + x + 1, (z + 1) * w + x]) := by
  refine ⟨rfl, rfl, fun hx2 hz2 => ?_⟩
  simpa [cellIndices] using sonogram3DIndices_cell w h x z hx2 hz2

/-- C8, witness at `W = H = 3`, `size = 2`, interior cell `(1, 1)`. -/
theorem claim_c8_witness :
    ((sonogram3DIndices 3 3).drop (6 * (1 * (3 - 1) + 1))).take 6
      = [1 * 3 + 1, 1 * 3 + 1 + 1, (1 + 1) * 3 + 1 + 1,
          1 * 3 + 1, (1 + 1) * 3 + 1 + 1, (1 + 1) * 3 + 1] :=
  (claim_c8 3 3 2 1 1 (by decide) (by decide)).2.2 (by decide) (by decide)

set_option maxHeartbeats 1600000 in
/-- C9: for every matrix with non-zero determinant (the cofactor expansion
`detM` that `invert` divides by), `inverse().multiply(M)` is exactly the
identity over exact rational arithmetic. -/
theorem claim_c9 (m : Matrix4x4) (h : detM m ≠ 0) :
    (m.inverse).multiply m = Matrix4x4.loadIdentity := by
  ext <;>
  · simp only [Matrix4x4.inverse, copy_eq, Matrix4x4.invert, Matrix4x4.multiply,
      Matrix4x4.loadIdentity]
    field_simp
    simp only [detM, t0, t1, t2, t3, tmp0, tmp1, tmp2, tmp3, tmp4, tmp5, tmp6,
      tmp7, tmp8, tmp9, tmp10, tmp11, tmp12, tmp13, tmp14, tmp15, tmp16,
      tmp17, tmp18, tmp19, tmp20, tmp21, tmp22, tmp23] at h ⊢
    ring

/-- The diagonal matrix `diag(1, 2, 3, 4)`, whose determinant is 24. -/
def mC9 : Matrix4x4 :=
  ⟨1, 0, 0, 0, 0, 2, 0, 0, 0, 0, 3, 0, 0, 0, 0, 4⟩

/-- C9, witness at `diag(1, 2, 3, 4)`. -/
theorem claim_c9_witness :
    detM mC9 ≠ 0
      ∧ (mC9.inverse).multiply mC9 = Matrix4x4.loadIdentity := by
  have hdet : detM mC9 ≠ 0 := by
    norm_num [detM, t0, t1, t2, t3, tmp0, tmp1, tmp2, tmp3, tmp4, tmp5, mC9]
  exact ⟨hdet, claim_c9 mC9 hdet⟩

/-- A concrete view state in 3D-sonogram mode whose 3D shader failed to
link: `o3djs.shader.Shader` then deletes the program and stores `null`. -/
def stC10 : AnalyserViewState ℕ where
  analysisType := .sonogram3D
  ringBuffer := ⟨256, fun _ => 0, 0⟩
  sonogram3DNumIndices := sonogram3DNumIndicesStored 256 256
  frequencyShader := ⟨some 1⟩
  waveformShader := ⟨some 2⟩
  sonogramShader := ⟨some 3⟩
  sonogram3DShader := ⟨none⟩

/-- C10, counterexample: with the 3D shader program failed (`none`),
`drawGL` still issues the `drawElements` call for that frame — the draw is
not skipped. -/
theorem claim_c10_counterexample :
    stC10.sonogram3DShader.program = none
      ∧ GLCommand.drawElementsTriangles (sonogram3DNumIndicesStored 256 256)
        ∈ (drawGL stC10 0).2 := by
  decide

/-- C10 (amended): when the active mode's shader program failed to
compile or link (`program = null`), the per-frame render still completes
without aborting: `bind()` executes `useProgram(null)` — so no program is
bound, which renders nothing at the GL level — but the draw call itself is
still issued rather than skipped. -/
theorem claim_c10 {α : Type} (st : AnalyserViewState α) (d : α)
    (hmode : st.analysisType = AnalysisType.sonogram3D)
    (hsh : st.sonogram3DShader.program = none) :
    GLCommand.useProgram none ∈ (drawGL st d).2
      ∧ GLCommand.drawElementsTriangles st.sonogram3DNumIndices
        ∈ (drawGL st d).2 := by
  constructor <;> simp [drawGL, currentShader, hmode, hsh]

/-- C10, witness at the concrete failed-shader state. -/
theorem claim_c10_witness :
    GLCommand.useProgram none ∈ (drawGL stC10 0).2
      ∧ GLCommand.drawElementsTriangles stC10.sonogram3DNumIndices
        ∈ (drawGL stC10 0).2 :=
  claim_c10 stC10 0 rfl rfl

end Spectro
